import Mathlib

/-!
Verification of the toolbox and shared-video components of a
video-conferencing web client (Toolbox.tsx and SharedVideo).

The components are shallowly embedded: React render output becomes
explicit tree-shaped data, redux dispatch calls become lists of ReduxAction
values, JavaScript numbers become integers, and the throwing URL
constructor becomes an Option-valued parser wrapped in Except.
-/

set_option maxRecDepth 4000

/-- True when pat occurs as a contiguous substring of s.  Embeds the
JavaScript test videoUrl.match(/http/) being truthy for the literal
pattern http. -/
def strContains (s pat : String) : Bool := decide (pat.data <:+: s.data)

/-- True when s ends with pat.  Embeds String.prototype.endsWith. -/
def strEndsWith (s pat : String) : Bool := decide (pat.data <:+ s.data)

/-- Result of parsing an absolute URL: the serialized scheme (with the
trailing colon) and the pathname, the two components the code reads. -/
structure URLParts where
  protocol : String
  pathname : String
deriving DecidableEq

/-- First character of a URL scheme: an ASCII letter. -/
def isSchemeStartChar (c : Char) : Bool := c.isAlpha

/-- Later characters of a URL scheme: ASCII alphanumerics, plus, minus
or dot. -/
def isSchemeRestChar (c : Char) : Bool :=
  c.isAlphanum || c == '+' || c == '-' || c == '.'

/-- Splits a character list at the first colon, returning the part
before it and the part after it, or none when there is no colon. -/
def splitAtColon : List Char → Option (List Char × List Char)
  | [] => none
  | c :: cs =>
    if c == ':' then some ([], cs)
    else
      match splitAtColon cs with
      | some (a, b) => some (c :: a, b)
      | none => none

/-- A nonempty scheme: a letter followed by scheme characters. -/
def validScheme (cs : List Char) : Bool :=
  match cs with
  | [] => false
  | c :: rest => isSchemeStartChar c && rest.all isSchemeRestChar

/-- The special schemes of the WHATWG URL standard whose parsing goes
through an authority (file is handled in the non-special branch here,
a simplification that never changes whether the pathname ends in a
given extension). -/
def specialSchemes : List String := ["http", "https", "ws", "wss", "ftp"]

/-- Model of the WHATWG URL constructor, new URL(input), the browser
built-in the source calls: none models the constructor throwing.
Restricted to what the code reads (throw behaviour and the pathname):
percent-encoding, dot-segment normalization, host validation and
whitespace stripping are not modelled.  A string without a valid
scheme followed by a colon makes the constructor throw; a special
scheme with an empty host makes it throw; otherwise the pathname is
the text after the authority (resp. after the colon) up to a query or
fragment, with backslashes normalized to slashes in the special
case. -/
def parseURL (s : String) : Option URLParts :=
  match splitAtColon s.data with
  | none => none
  | some (schemeCs, rest) =>
    if validScheme schemeCs then
      let scheme := String.mk (schemeCs.map Char.toLower)
      if specialSchemes.contains scheme then
        let rest1 := rest.dropWhile (fun c => c == '/' || c == '\\')
        let host := rest1.takeWhile
          (fun c => c != '/' && c != '\\' && c != '?' && c != '#')
        let after := rest1.drop host.length
        if host.isEmpty then none
        else
          let rawPath := after.takeWhile (fun c => c != '?' && c != '#')
          let path := rawPath.map (fun c => if c == '\\' then '/' else c)
          some { protocol := scheme ++ ":",
                 pathname := if path.isEmpty then "/" else String.mk path }
      else
        some { protocol := scheme ++ ":",
               pathname := String.mk (rest.takeWhile (fun c => c != '?' && c != '#')) }
    else none

/-- The video-backend managers the shared-video panel can delegate to,
each recording the videoId prop it is rendered with. -/
inductive Manager where
  | extendedVideoManager (videoId : String)
  | videoManager (videoId : String)
  | youtubeVideoManager (videoId : String)
deriving DecidableEq

deriving instance DecidableEq for Except

/-- Embeds SharedVideo.getManager.  The videoUrl prop is optional;
none and the empty string are the falsy values of the guard
if (!videoUrl).  The JavaScript function can throw (the URL
constructor), modelled by Except.error; Except.ok none models the
early return null. -/
def getManager (videoUrl : Option String) : Except Unit (Option Manager) :=
  match videoUrl with
  | none => Except.ok none
  | some u =>
    if u = "" then Except.ok none
    else if strContains u "http" then
      match parseURL u with
      | none => Except.error ()
      | some vUrl =>
        if strEndsWith vUrl.pathname ".flv" || strEndsWith vUrl.pathname ".m3u8" then
          Except.ok (some (Manager.extendedVideoManager u))
        else
          Except.ok (some (Manager.videoManager u))
    else Except.ok (some (Manager.youtubeVideoManager u))

/-- Modelled from the spec: the environment of SharedVideo.getDimensions.
The code reads interfaceConfig.VERTICAL_FILMSTRIP (a global flag),
getToolboxHeight() (toolbox functions, outside the excerpt) and
Filmstrip.getFilmstripHeight() (UI module, outside the excerpt); the
spec calls these the vertical-filmstrip configuration, the toolbox
height and the filmstrip height, so they appear as abstract values.
JavaScript numbers are modelled as integers. -/
structure SVEnv where
  verticalFilmstrip : Bool
  toolboxHeight : Int
  filmstripHeight : Int
deriving DecidableEq

/-- A CSS dimension pair, each component a string such as 540px. -/
structure Dimensions where
  width : String
  height : String
deriving DecidableEq

/-- Embeds SharedVideo.getDimensions: template literals become
decimal rendering of the integer followed by px. -/
def getDimensions (env : SVEnv) (clientHeight clientWidth : Int)
    (filmstripVisible : Bool) (filmstripWidth : Int) : Dimensions :=
  if env.verticalFilmstrip then
    { width :=
        if filmstripVisible then toString (clientWidth - filmstripWidth) ++ "px"
        else toString clientWidth ++ "px",
      height := toString (clientHeight - env.toolboxHeight) ++ "px" }
  else
    { width := toString clientWidth ++ "px",
      height :=
        if filmstripVisible then toString (clientHeight - env.filmstripHeight) ++ "px"
        else toString clientHeight ++ "px" }

/-- The props of the SharedVideo component, from its IProps interface
and _mapStateToProps. -/
structure SharedVideoProps where
  clientHeight : Int
  clientWidth : Int
  filmstripVisible : Bool
  filmstripWidth : Int
  isEnabled : Bool
  isOwner : Bool
  isResizing : Bool
  videoUrl : Option String
deriving DecidableEq

/-- The div rendered by SharedVideo.render when it renders anything:
its className, id, inline style and the manager child chosen by
getManager (none when getManager returned null). -/
structure SharedVideoDiv where
  className : String
  id : String
  style : Dimensions
  manager : Option Manager
deriving DecidableEq

/-- Embeds SharedVideo.render.  Except.error models the render call
throwing (it evaluates this.getManager(), which can throw);
Except.ok none models the return null when the feature is
disabled. -/
def sharedVideoRender (env : SVEnv) (p : SharedVideoProps) :
    Except Unit (Option SharedVideoDiv) :=
  if !p.isEnabled then Except.ok none
  else
    match getManager p.videoUrl with
    | Except.error e => Except.error e
    | Except.ok m =>
      Except.ok (some
        { className := if !p.isResizing && p.isOwner then "" else "disable-pointer",
          id := "sharedVideo",
          style := getDimensions env p.clientHeight p.clientWidth
            p.filmstripVisible p.filmstripWidth,
          manager := m })

/-- The Content component of a toolbox button entry: either the
Separator marker component or an ordinary button component, identified
by name. -/
inductive ContentKind where
  | separator
  | widget (name : String)
deriving DecidableEq

/-- A button entry as produced by getVisibleButtons: its key and its
Content component. -/
structure ToolboxButton where
  key : String
  content : ContentKind
deriving DecidableEq

/-- The pair of lists returned by getVisibleButtons (a toolbox function
outside the excerpt, so its result is taken as an input here). -/
structure VisibleButtons where
  mainMenuButtons : List ToolboxButton
  overflowMenuButtons : List ToolboxButton
deriving DecidableEq

/-- A button element rendered in the toolbox content row: the JSX
passes the entry key both as the React key and as the buttonKey
prop. -/
structure RenderedButton where
  key : String
  buttonKey : String
  content : ContentKind
deriving DecidableEq

/-- The hangup control the Toolbox renders: either the HangupMenuButton
wrapping a context menu (its isOpen prop and the names of its child
entries), or the plain HangupButton (with its visible prop). -/
inductive HangupControl where
  | hangupMenuButton (isOpen : Bool) (children : List String)
  | hangupButton (visible : Bool)
deriving DecidableEq

/-- The parts of the rendered Toolbox tree the claims are about: the
mapped content-row buttons and the optional hangup control that
follows them inside toolbox-content-items. -/
structure ToolboxTree where
  contentButtons : List RenderedButton
  hangupControl : Option HangupControl
deriving DecidableEq

/-- The props of the Toolbox component (IProps): an optional explicit
button list and the conference-joined flag. -/
structure ToolboxProps where
  toolbarButtons : Option (List String)
  isConferenceJoined : Bool
deriving DecidableEq

/-- The slice of the redux store the Toolbox reads through its
selectors, restricted to the fields that decide the claims.
conferenceEndSupported models conference?.isEndConferenceSupported():
none when there is no conference.  visibleButtons stands for the
result of getVisibleButtons (a toolbox function outside the excerpt)
for the current inputs.  toolbarHovered is the hovered flag the
toolbox actions mutate. -/
structure ToolboxState where
  conferenceEndSupported : Option Bool
  isModerator : Bool
  iAmRecorder : Bool
  iAmSipGateway : Bool
  overflowMenuVisible : Bool
  hangupMenuVisible : Bool
  reduxToolbarButtons : List String
  toolbarVisible : Bool
  isDialogVisible : Bool
  toolbarHovered : Bool
  visibleButtons : VisibleButtons
deriving DecidableEq

/-- Modelled from the spec: isButtonEnabled is imported from the
toolbox functions, outside the excerpt; the spec reads it as the named
button being enabled in (a member of) the toolbar button list. -/
def isButtonEnabled (name : String) (buttons : List String) : Bool :=
  buttons.contains name

/-- Embeds toolbarButtons || reduxToolbarButtons: the prop wins when
it is present (an empty array is truthy in JavaScript, so only an
absent prop falls back). -/
def toolbarButtonsToUse (props : ToolboxProps) (s : ToolboxState) : List String :=
  props.toolbarButtons.getD s.reduxToolbarButtons

/-- Embeds Boolean(conference?.isEndConferenceSupported() && isModerator):
optional chaining on a missing conference yields a falsy value. -/
def endConferenceSupported (s : ToolboxState) : Bool :=
  s.conferenceEndSupported.getD false && s.isModerator

/-- Embeds the return value of the Toolbox function component: none is
the early return null when iAmRecorder or iAmSipGateway holds;
otherwise the content row maps the concatenation of the two visible
button lists, skipping entries whose Content is Separator (the JSX
guard Content !== Separator makes React drop them), and the hangup
control renders when the hangup button is enabled, as the
HangupMenuButton when ending the conference is supported and as the
plain HangupButton otherwise. -/
def toolboxRender (props : ToolboxProps) (s : ToolboxState) : Option ToolboxTree :=
  if s.iAmRecorder || s.iAmSipGateway then none
  else
    let buttons := toolbarButtonsToUse props s
    let toolMainMenuButtons :=
      s.visibleButtons.mainMenuButtons ++ s.visibleButtons.overflowMenuButtons
    some
      { contentButtons :=
          (toolMainMenuButtons.filter (fun b => b.content ≠ ContentKind.separator)).map
            (fun b => { key := b.key, buttonKey := b.key, content := b.content }),
        hangupControl :=
          if isButtonEnabled "hangup" buttons then
            some
              (if endConferenceSupported s then
                HangupControl.hangupMenuButton s.hangupMenuVisible
                  ["EndConferenceButton", "LeaveConferenceButton"]
              else HangupControl.hangupButton (isButtonEnabled "hangup" buttons))
          else none }

/-- The redux intents the Toolbox dispatches in the embedded
fragments. -/
inductive ReduxAction where
  | setHangupMenuVisible (visible : Bool)
  | setOverflowMenuVisible (visible : Bool)
  | setToolbarHovered (hovered : Bool)
deriving DecidableEq

/-- Embeds the onSetHangupVisible callback: it dispatches
setHangupMenuVisible(visible) then setToolbarHovered(visible). -/
def onSetHangupVisible (visible : Bool) : List ReduxAction :=
  [ReduxAction.setHangupMenuVisible visible, ReduxAction.setToolbarHovered visible]

/-- Embeds the onSetOverflowVisible callback: it dispatches
setOverflowMenuVisible(visible) then setToolbarHovered(visible). -/
def onSetOverflowVisible (visible : Bool) : List ReduxAction :=
  [ReduxAction.setOverflowMenuVisible visible, ReduxAction.setToolbarHovered visible]

/-- Embeds the first menu-closing useEffect: when the hangup menu is
visible while the toolbar is not, it calls onSetHangupVisible(false)
and dispatches setToolbarHovered(false). -/
def hangupMenuEffect (s : ToolboxState) : List ReduxAction :=
  if s.hangupMenuVisible && !s.toolbarVisible then
    onSetHangupVisible false ++ [ReduxAction.setToolbarHovered false]
  else []

/-- Embeds the second menu-closing useEffect: when the overflow menu is
visible while a dialog is visible, it calls onSetOverflowVisible(false)
and dispatches setToolbarHovered(false). -/
def overflowMenuEffect (s : ToolboxState) : List ReduxAction :=
  if s.overflowMenuVisible && s.isDialogVisible then
    onSetOverflowVisible false ++ [ReduxAction.setToolbarHovered false]
  else []

/-- All intents the two menu-closing effects dispatch on a render with
state s. -/
def effectDispatches (s : ToolboxState) : List ReduxAction :=
  hangupMenuEffect s ++ overflowMenuEffect s

/-- The reducer for the embedded intents on the toolbox state. -/
def applyAction (s : ToolboxState) : ReduxAction → ToolboxState
  | ReduxAction.setHangupMenuVisible v => { s with hangupMenuVisible := v }
  | ReduxAction.setOverflowMenuVisible v => { s with overflowMenuVisible := v }
  | ReduxAction.setToolbarHovered v => { s with toolbarHovered := v }

/-- Applies a dispatched list of intents in order. -/
def applyActions (as : List ReduxAction) (s : ToolboxState) : ToolboxState :=
  as.foldl applyAction s

/-- The step of the effect step relation: one render of the component
dispatches the effect intents, which the reducer folds into the
state. -/
def effectStep (s : ToolboxState) : ToolboxState :=
  applyActions (effectDispatches s) s

/-- Embeds the onEscKey callback: the event is optional (e?.key); on
the Escape key it dispatches setHangupMenuVisible(false) when the
hangup menu is visible and setOverflowMenuVisible(false) when the
overflow menu is visible (e?.stopPropagation() is a DOM effect, not a
dispatch). -/
def onEscKey (key : Option String) (hangupMenuVisible overflowMenuVisible : Bool) :
    List ReduxAction :=
  if key == some "Escape" then
    (if hangupMenuVisible then [ReduxAction.setHangupMenuVisible false] else [])
      ++ (if overflowMenuVisible then [ReduxAction.setOverflowMenuVisible false] else [])
  else []

/-- Embeds the onMouseOut callback:
!overflowMenuVisible && dispatch(setToolbarHovered(false)). -/
def onMouseOut (overflowMenuVisible : Bool) : List ReduxAction :=
  if !overflowMenuVisible then [ReduxAction.setToolbarHovered false] else []

/-- C1 counterexample: the string http contains the substring http, so
the claim as stated promises a VideoManager with videoId http, but the
URL constructor throws on it (it has no scheme), so getManager throws
and returns no manager at all. -/
theorem getManager_claim_counterexample :
    getManager (some "http") = Except.error ()
      ∧ getManager (some "http") ≠ Except.ok (some (Manager.videoManager "http"))
      ∧ getManager (some "http") ≠ Except.ok (some (Manager.extendedVideoManager "http")) := by
  decide

/-- C1 (amended): getManager returns null on an absent or empty
videoUrl; when videoUrl contains http and parses as a URL, it returns
an ExtendedVideoManager with videoId videoUrl when the pathname ends
with .flv or .m3u8 and a VideoManager with videoId videoUrl otherwise;
when videoUrl contains http but the URL constructor fails, it throws;
in every other case it returns a YoutubeVideoManager with videoId
videoUrl. -/
theorem getManager_spec :
    getManager none = Except.ok none ∧
    getManager (some "") = Except.ok none ∧
    (∀ u : String, u ≠ "" → strContains u "http" = true →
      (∀ p : URLParts, parseURL u = some p →
        ((strEndsWith p.pathname ".flv" || strEndsWith p.pathname ".m3u8") = true →
          getManager (some u) = Except.ok (some (Manager.extendedVideoManager u))) ∧
        ((strEndsWith p.pathname ".flv" || strEndsWith p.pathname ".m3u8") = false →
          getManager (some u) = Except.ok (some (Manager.videoManager u)))) ∧
      (parseURL u = none → getManager (some u) = Except.error ())) ∧
    (∀ u : String, u ≠ "" → strContains u "http" = false →
      getManager (some u) = Except.ok (some (Manager.youtubeVideoManager u))) := by
  refine ⟨rfl, rfl, ?_, ?_⟩
  · intro u hne hc
    refine ⟨?_, ?_⟩
    · intro p hp
      constructor <;> intro hend <;> simp [getManager, hne, hc, hp, hend]
    · intro hp
      simp [getManager, hne, hc, hp]
  · intro u hne hc
    simp [getManager, hne, hc]

/-- Witness for C1 at a live-stream URL whose pathname ends in
m3u8. -/
theorem getManager_spec_witness :
    getManager (some "https://example.com/live/stream.m3u8")
      = Except.ok (some (Manager.extendedVideoManager "https://example.com/live/stream.m3u8")) :=
  ((getManager_spec.2.2.1 "https://example.com/live/stream.m3u8" (by decide) (by decide)).1
    { protocol := "https:", pathname := "/live/stream.m3u8" } (by decide)).1 (by decide)

/-- C2 counterexample: getManager is not total on all videoUrl
strings; on the string http it throws instead of returning. -/
theorem getManager_total_counterexample :
    ¬ ∀ u : Option String, ∃ r : Option Manager, getManager u = Except.ok r := by
  intro h
  obtain ⟨r, hr⟩ := h (some "http")
  have he : getManager (some "http") = Except.error () := by decide
  rw [he] at hr
  exact Except.noConfusion hr

/-- C2 (amended): getManager throws exactly when videoUrl is a
non-empty string that contains http but on which the URL constructor
fails; on every other videoUrl the non-empty guard suffices and the
function returns normally. -/
theorem getManager_throw_iff (u : Option String) :
    (∃ e : Unit, getManager u = Except.error e) ↔
      (∃ v : String, u = some v ∧ v ≠ "" ∧ strContains v "http" = true ∧ parseURL v = none) := by
  cases u with
  | none => simp [getManager]
  | some v =>
    by_cases h1 : v = ""
    · subst h1
      simp [getManager]
    · by_cases h2 : strContains v "http" = true
      · cases h3 : parseURL v with
        | none => simp [getManager, h1, h2, h3]
        | some p =>
          by_cases h4 : (strEndsWith p.pathname ".flv" || strEndsWith p.pathname ".m3u8") = true
          · simp [getManager, h1, h2, h3, h4]
          · simp [getManager, h1, h2, h3, h4]
      · simp [getManager, h1, h2]

/-- C3: getDimensions with the vertical filmstrip configured returns
width clientWidth minus filmstripWidth when the filmstrip is visible
and clientWidth otherwise, and height clientHeight minus the toolbox
height; without it, height is clientHeight minus the filmstrip height
when the filmstrip is visible and clientHeight otherwise, and width is
clientWidth; each value rendered as the decimal number followed by
px. -/
theorem getDimensions_spec (env : SVEnv) (clientHeight clientWidth : Int)
    (filmstripVisible : Bool) (filmstripWidth : Int) :
    (env.verticalFilmstrip = true →
      (filmstripVisible = true →
        (getDimensions env clientHeight clientWidth filmstripVisible filmstripWidth).width
          = toString (clientWidth - filmstripWidth) ++ "px") ∧
      (filmstripVisible = false →
        (getDimensions env clientHeight clientWidth filmstripVisible filmstripWidth).width
          = toString clientWidth ++ "px") ∧
      (getDimensions env clientHeight clientWidth filmstripVisible filmstripWidth).height
        = toString (clientHeight - env.toolboxHeight) ++ "px") ∧
    (env.verticalFilmstrip = false →
      (filmstripVisible = true →
        (getDimensions env clientHeight clientWidth filmstripVisible filmstripWidth).height
          = toString (clientHeight - env.filmstripHeight) ++ "px") ∧
      (filmstripVisible = false →
        (getDimensions env clientHeight clientWidth filmstripVisible filmstripWidth).height
          = toString clientHeight ++ "px") ∧
      (getDimensions env clientHeight clientWidth filmstripVisible filmstripWidth).width
        = toString clientWidth ++ "px") := by
  rcases env with ⟨vf, th, fh⟩
  cases vf <;> cases filmstripVisible <;> simp [getDimensions]

/-- Witness for C3 with the vertical filmstrip visible at concrete
sizes: 1280 minus 315 renders as 965px. -/
theorem getDimensions_spec_witness :
    (getDimensions ⟨true, 72, 90⟩ 800 1280 true 315).width = "965px" :=
  Eq.trans (((getDimensions_spec ⟨true, 72, 90⟩ 800 1280 true 315).1 rfl).1 rfl) (by decide)

/-- C9 counterexample: with the feature enabled and videoUrl the
string http, render evaluates getManager, which throws, so no div is
produced although isEnabled is true. -/
theorem sharedVideoRender_claim_counterexample :
    ¬ ∃ d : SharedVideoDiv,
      sharedVideoRender ⟨false, 0, 0⟩ ⟨720, 1280, false, 0, true, true, false, some "http"⟩
        = Except.ok (some d) := by
  rintro ⟨d, hd⟩
  have he : sharedVideoRender ⟨false, 0, 0⟩ ⟨720, 1280, false, 0, true, true, false, some "http"⟩
      = Except.error () := by decide
  rw [he] at hd
  exact Except.noConfusion hd

/-- C9 (amended): render returns null when isEnabled is false; when
isEnabled is true and getManager returns normally, it renders a single
div with id sharedVideo, style the result of getDimensions, the
returned manager as its child, and the disable-pointer class exactly
when the user is resizing the filmstrip or the local user is not the
owner. -/
theorem sharedVideoRender_spec (env : SVEnv) (p : SharedVideoProps) :
    (p.isEnabled = false → sharedVideoRender env p = Except.ok none) ∧
    (p.isEnabled = true → ∀ m : Option Manager, getManager p.videoUrl = Except.ok m →
      ∃ d : SharedVideoDiv, sharedVideoRender env p = Except.ok (some d) ∧
        d.id = "sharedVideo" ∧
        d.style = getDimensions env p.clientHeight p.clientWidth
          p.filmstripVisible p.filmstripWidth ∧
        d.manager = m ∧
        (d.className = "disable-pointer" ↔ (p.isResizing = true ∨ p.isOwner = false))) := by
  constructor
  · intro h
    simp [sharedVideoRender, h]
  · intro h m hm
    refine ⟨{ className := if !p.isResizing && p.isOwner then "" else "disable-pointer",
              id := "sharedVideo",
              style := getDimensions env p.clientHeight p.clientWidth
                p.filmstripVisible p.filmstripWidth,
              manager := m }, ?_, rfl, rfl, rfl, ?_⟩
    · simp [sharedVideoRender, h, hm]
    · cases hr : p.isResizing <;> cases ho : p.isOwner <;> simp [hr, ho]

/-- Witness for C9: enabled, no video URL, not resizing, not owner. -/
theorem sharedVideoRender_spec_witness :
    ∃ d : SharedVideoDiv,
      sharedVideoRender ⟨true, 72, 90⟩ ⟨720, 1280, true, 315, true, false, false, none⟩
        = Except.ok (some d) ∧
      d.id = "sharedVideo" ∧
      d.style = getDimensions ⟨true, 72, 90⟩ 720 1280 true 315 ∧
      d.manager = none ∧
      (d.className = "disable-pointer" ↔ (false = true ∨ false = false)) :=
  (sharedVideoRender_spec ⟨true, 72, 90⟩ ⟨720, 1280, true, 315, true, false, false, none⟩).2
    rfl none rfl

/-- C4: whenever the Toolbox renders, the buttons of its content row
are exactly the concatenation of the mainMenuButtons and
overflowMenuButtons lists of the getVisibleButtons result, in that
order, with every Separator entry omitted and each remaining button
rendered with its own key (as both the React key and the buttonKey
prop). -/
theorem toolbox_content_row_spec (props : ToolboxProps) (s : ToolboxState) (t : ToolboxTree)
    (h : toolboxRender props s = some t) :
    t.contentButtons =
      ((s.visibleButtons.mainMenuButtons ++ s.visibleButtons.overflowMenuButtons).filter
        (fun b => b.content ≠ ContentKind.separator)).map
        (fun b => { key := b.key, buttonKey := b.key, content := b.content }) := by
  unfold toolboxRender at h
  split at h
  · exact Option.noConfusion h
  · cases h
    rfl

/-- Witness for C4: two main buttons around a separator and one
overflow button give a content row of the two non-separator buttons in
order. -/
theorem toolbox_content_row_spec_witness :
    (ToolboxTree.mk
        [⟨"microphone", "microphone", ContentKind.widget "AudioMuteButton"⟩,
         ⟨"chat", "chat", ContentKind.widget "ChatButton"⟩]
        (some (HangupControl.hangupMenuButton false
          ["EndConferenceButton", "LeaveConferenceButton"]))).contentButtons =
      ((((VisibleButtons.mk
          [⟨"microphone", ContentKind.widget "AudioMuteButton"⟩,
           ⟨"sep1", ContentKind.separator⟩]
          [⟨"chat", ContentKind.widget "ChatButton"⟩]).mainMenuButtons
        ++ (VisibleButtons.mk
          [⟨"microphone", ContentKind.widget "AudioMuteButton"⟩,
           ⟨"sep1", ContentKind.separator⟩]
          [⟨"chat", ContentKind.widget "ChatButton"⟩]).overflowMenuButtons).filter
        (fun b => b.content ≠ ContentKind.separator)).map
        (fun b => { key := b.key, buttonKey := b.key, content := b.content })) :=
  toolbox_content_row_spec ⟨none, true⟩
    ⟨some true, true, false, false, false, false, ["hangup"], true, false, false,
      ⟨[⟨"microphone", ContentKind.widget "AudioMuteButton"⟩,
        ⟨"sep1", ContentKind.separator⟩],
       [⟨"chat", ContentKind.widget "ChatButton"⟩]⟩⟩
    (ToolboxTree.mk
        [⟨"microphone", "microphone", ContentKind.widget "AudioMuteButton"⟩,
         ⟨"chat", "chat", ContentKind.widget "ChatButton"⟩]
        (some (HangupControl.hangupMenuButton false
          ["EndConferenceButton", "LeaveConferenceButton"])))
    (by decide)

/-- C5 counterexample: with iAmRecorder set and hangup in the toolbar
button list, the Toolbox renders nothing at all, so no hangup control
is rendered although the hangup button is enabled, refuting the
biconditional for every state. -/
theorem toolbox_hangup_counterexample :
    ¬ ((∃ t : ToolboxTree,
          toolboxRender ⟨none, true⟩
            ⟨some true, true, true, false, false, false, ["hangup"], true, false, false, ⟨[], []⟩⟩
            = some t ∧ t.hangupControl ≠ none)
        ↔ isButtonEnabled "hangup"
            (toolbarButtonsToUse ⟨none, true⟩
              ⟨some true, true, true, false, false, false, ["hangup"], true, false, false,
                ⟨[], []⟩⟩) = true) := by
  intro h
  obtain ⟨t, ht, -⟩ := h.mpr (by decide)
  have hn : toolboxRender ⟨none, true⟩
      ⟨some true, true, true, false, false, false, ["hangup"], true, false, false, ⟨[], []⟩⟩
      = none := by decide
  rw [hn] at ht
  exact Option.noConfusion ht

/-- C5 (amended): whenever the Toolbox renders (so neither iAmRecorder
nor iAmSipGateway is set), it renders a hangup control exactly when
the hangup button is enabled in the toolbar button list; the control
is the HangupMenuButton with the end-conference and leave-conference
entries exactly when the conference supports ending the conference and
the local participant is a moderator, and the plain HangupButton
otherwise. -/
theorem toolbox_hangup_spec (props : ToolboxProps) (s : ToolboxState) (t : ToolboxTree)
    (h : toolboxRender props s = some t) :
    (t.hangupControl ≠ none ↔ isButtonEnabled "hangup" (toolbarButtonsToUse props s) = true) ∧
    (∀ hc : HangupControl, t.hangupControl = some hc →
      (endConferenceSupported s = true →
        hc = HangupControl.hangupMenuButton s.hangupMenuVisible
          ["EndConferenceButton", "LeaveConferenceButton"]) ∧
      (endConferenceSupported s = false → hc = HangupControl.hangupButton true)) := by
  unfold toolboxRender at h
  split at h
  · exact Option.noConfusion h
  · cases h
    constructor
    · by_cases he : isButtonEnabled "hangup" (toolbarButtonsToUse props s) = true <;>
        simp [he]
    · intro hc hhc
      by_cases he : isButtonEnabled "hangup" (toolbarButtonsToUse props s) = true
      · simp only [he, if_true] at hhc
        constructor <;> intro hend <;>
          simp only [hend, if_true, if_false, Option.some_inj] at hhc <;>
          simp [← hhc, he]
      · simp [he] at hhc

/-- Witness for C5: end-conference supported and moderator, hangup
enabled, so the hangup control is present. -/
theorem toolbox_hangup_spec_witness :
    ((ToolboxTree.mk []
        (some (HangupControl.hangupMenuButton false
          ["EndConferenceButton", "LeaveConferenceButton"]))).hangupControl ≠ none) :=
  (toolbox_hangup_spec ⟨none, true⟩
    ⟨some true, true, false, false, false, false, ["hangup"], true, false, false, ⟨[], []⟩⟩
    (ToolboxTree.mk []
      (some (HangupControl.hangupMenuButton false
        ["EndConferenceButton", "LeaveConferenceButton"])))
    (by decide)).1.mpr (by decide)

/-- C6: in every state (hence in every reachable state of the effect
step relation), if the hangup menu is visible while the toolbar is
not, the effects dispatch setHangupMenuVisible(false) and
setToolbarHovered(false); and if the overflow menu is visible while a
dialog is visible, the effects dispatch setOverflowMenuVisible(false)
and setToolbarHovered(false). -/
theorem toolbox_effects_close_menus (s : ToolboxState) :
    (s.hangupMenuVisible = true → s.toolbarVisible = false →
      ReduxAction.setHangupMenuVisible false ∈ effectDispatches s ∧
      ReduxAction.setToolbarHovered false ∈ effectDispatches s) ∧
    (s.overflowMenuVisible = true → s.isDialogVisible = true →
      ReduxAction.setOverflowMenuVisible false ∈ effectDispatches s ∧
      ReduxAction.setToolbarHovered false ∈ effectDispatches s) := by
  constructor
  · intro h1 h2
    constructor <;>
      exact List.mem_append_left _
        (by simp [hangupMenuEffect, onSetHangupVisible, h1, h2])
  · intro h1 h2
    constructor <;>
      exact List.mem_append_right _
        (by simp [overflowMenuEffect, onSetOverflowVisible, h1, h2])

/-- Witness for C6: hangup menu open with the toolbar hidden, overflow
menu open with a dialog visible; all four intents are dispatched. -/
theorem toolbox_effects_close_menus_witness :
    (ReduxAction.setHangupMenuVisible false ∈ effectDispatches
      ⟨some true, true, false, false, true, true, [], false, true, false, ⟨[], []⟩⟩ ∧
     ReduxAction.setToolbarHovered false ∈ effectDispatches
      ⟨some true, true, false, false, true, true, [], false, true, false, ⟨[], []⟩⟩) ∧
    (ReduxAction.setOverflowMenuVisible false ∈ effectDispatches
      ⟨some true, true, false, false, true, true, [], false, true, false, ⟨[], []⟩⟩ ∧
     ReduxAction.setToolbarHovered false ∈ effectDispatches
      ⟨some true, true, false, false, true, true, [], false, true, false, ⟨[], []⟩⟩) :=
  ⟨(toolbox_effects_close_menus
      ⟨some true, true, false, false, true, true, [], false, true, false, ⟨[], []⟩⟩).1 rfl rfl,
   (toolbox_effects_close_menus
      ⟨some true, true, false, false, true, true, [], false, true, false, ⟨[], []⟩⟩).2 rfl rfl⟩

/-- C7: onEscKey dispatches setHangupMenuVisible(false) exactly when
the key is Escape and the hangup menu is visible, dispatches
setOverflowMenuVisible(false) exactly when the key is Escape and the
overflow menu is visible, and dispatches nothing for any other
key. -/
theorem onEscKey_spec (key : Option String) (hv ov : Bool) :
    (ReduxAction.setHangupMenuVisible false ∈ onEscKey key hv ov ↔
      (key = some "Escape" ∧ hv = true)) ∧
    (ReduxAction.setOverflowMenuVisible false ∈ onEscKey key hv ov ↔
      (key = some "Escape" ∧ ov = true)) ∧
    (key ≠ some "Escape" → onEscKey key hv ov = []) := by
  by_cases hk : key = some "Escape"
  · subst hk
    cases hv <;> cases ov <;> simp [onEscKey]
  · have hk2 : (key == some "Escape") = false := by
      simpa using hk
    simp [onEscKey, hk2, hk]

/-- Witness for C7: Escape with the hangup menu visible dispatches the
hangup close intent. -/
theorem onEscKey_spec_witness :
    ReduxAction.setHangupMenuVisible false ∈ onEscKey (some "Escape") true false :=
  (onEscKey_spec (some "Escape") true false).1.mpr ⟨rfl, rfl⟩

/-- C8: when iAmRecorder or iAmSipGateway is set, the Toolbox renders
nothing, whatever the other props and state fields are. -/
theorem toolbox_recorder_renders_nothing (props : ToolboxProps) (s : ToolboxState)
    (h : (s.iAmRecorder || s.iAmSipGateway) = true) :
    toolboxRender props s = none := by
  simp [toolboxRender, h]

/-- Witness for C8: a recorder state renders nothing. -/
theorem toolbox_recorder_renders_nothing_witness :
    toolboxRender ⟨none, false⟩
      ⟨some false, false, true, false, false, false, ["hangup"], true, false, false, ⟨[], []⟩⟩
      = none :=
  toolbox_recorder_renders_nothing ⟨none, false⟩
    ⟨some false, false, true, false, false, false, ["hangup"], true, false, false, ⟨[], []⟩⟩
    rfl

/-- C10: onMouseOut dispatches setToolbarHovered(false) only when the
overflow menu is not visible; when it is visible, it dispatches
nothing, so applying its dispatches leaves every toolbox state
unchanged. -/
theorem onMouseOut_spec (ov : Bool) (s : ToolboxState) :
    (ReduxAction.setToolbarHovered false ∈ onMouseOut ov → ov = false) ∧
    (ov = true → onMouseOut ov = [] ∧ applyActions (onMouseOut ov) s = s) ∧
    (ov = false → onMouseOut ov = [ReduxAction.setToolbarHovered false]) := by
  cases ov <;> simp [onMouseOut, applyActions]

/-- Witness for C10: with the overflow menu visible, nothing is
dispatched and a concrete state is left unchanged. -/
theorem onMouseOut_spec_witness :
    onMouseOut true = [] ∧
    applyActions (onMouseOut true)
      ⟨some true, true, false, false, true, false, [], true, false, true, ⟨[], []⟩⟩
      = ⟨some true, true, false, false, true, false, [], true, false, true, ⟨[], []⟩⟩ :=
  (onMouseOut_spec true
    ⟨some true, true, false, false, true, false, [], true, false, true, ⟨[], []⟩⟩).2.1 rfl
